import Mathlib

/-!
Shallow embedding of the conversation/messaging synchronization layer of the
meowgram-native application, together with theorems settling the specified
properties of that layer.

The embedding follows the TypeScript source:
* conversationService (`createConversation`, `getOrCreateConversation`,
  `sendMessage`, `markConversationAsRead`, `deleteMessage`,
  `updateConversationUnreadCount`, `subscribeToUserConversations` projection);
* conversationMetadataService (`initializeConversationForUsers`);
* presenceService (`listenToTypingIndicators` projection);
* chatUtils (`createConversationId`);
* ChatContext (`sendMessage`, `totalUnreadCount`, the conversation-list
  loading effect) and MessageInput (`handleSendMessage`).

Firestore collections are modelled as association lists keyed by document id,
JavaScript `Date.now()` as an explicit integer parameter, and JavaScript
strings as Lean strings.
-/

namespace Meowgram

/-- Lexicographic comparison of character lists; this models the default
string comparison used by JavaScript `Array.prototype.sort()`. -/
def charListLt : List Char → List Char → Bool
  | [], [] => false
  | [], _ :: _ => true
  | _ :: _, [] => false
  | a :: as, b :: bs => if a < b then true else if b < a then false else charListLt as bs

/-- String comparison backing the two-element sort in `createConversationId`. -/
def strLt (a b : String) : Bool := charListLt a.data b.data

/-- Embeds `createConversationId` from chatUtils.ts (and the identical inline
computation in `createConversation` / `getOrCreateConversation` in
conversationService): `[userId1, userId2].sort().join("_")`. -/
def createConversationId (userId1 userId2 : String) : String :=
  if strLt userId2 userId1 then userId2 ++ "_" ++ userId1
  else userId1 ++ "_" ++ userId2

/-- JavaScript `String.prototype.trim()`: drop whitespace from both ends. -/
def jsTrim (s : String) : String :=
  ⟨(((s.data.dropWhile Char.isWhitespace).reverse.dropWhile Char.isWhitespace).reverse)⟩

/-- JavaScript `text.substring(0, n)`: the first `n` characters of a string. -/
def jsSubstring (s : String) (n : Nat) : String :=
  ⟨s.data.take n⟩

/-- JavaScript `a || b` for an optional string `a` (the empty string is falsy). -/
def jsOrString (a : Option String) (b : String) : String :=
  match a with
  | some s => if s = "" then b else s
  | none => b

/-! ### Data model (src/@types/chat.ts) -/

/-- One entry of `Conversation.participantDetails`. -/
structure ParticipantDetail where
  uid : String
  username : String
  displayName : String
  avatarUrl : String
deriving DecidableEq

/-- The denormalized `lastMessage` summary written by `sendMessage`:
`{id, text, senderId, senderName}`. -/
structure LastMessageSummary where
  id : String
  text : String
  senderId : String
  senderName : String
deriving DecidableEq

/-- The `replyTo` snapshot embedded in a message. -/
structure ReplyTo where
  messageId : String
  senderName : String
  text : String
deriving DecidableEq

/-- The `Message` document type. `readBy` is the userId → read-timestamp map,
modelled as an association list. -/
structure Message where
  id : String
  conversationId : String
  senderId : String
  senderName : String
  senderAvatar : String
  text : String
  mediaUrls : Option (List String)
  mediaTypes : Option (List String)
  timestamp : Int
  isRead : Bool
  readBy : List (String × Int)
  editedAt : Option Int
  deletedAt : Option Int
  replyTo : Option ReplyTo
deriving DecidableEq

/-- The `Conversation` document type. `participantDetails` is optional because
legacy documents may lack the field; `deletedBy` is optional because it is only
present once some participant has hidden the conversation. -/
structure Conversation where
  id : String
  participants : List String
  participantDetails : Option (List (String × ParticipantDetail))
  lastMessage : Option LastMessageSummary
  lastMessageTimestamp : Int
  createdAt : Int
  updatedAt : Int
  unreadCount : Int
  isArchived : Bool
  deletedBy : Option (List String)
deriving DecidableEq

/-- The `ConversationUser` per-user-per-conversation metadata document. -/
structure ConversationUser where
  conversationId : String
  userId : String
  joinedAt : Int
  isMuted : Bool
  lastReadMessageId : Option String
  lastReadTimestamp : Int
deriving DecidableEq

/-- The `TypingIndicator` document type. -/
structure TypingIndicator where
  userId : String
  username : String
  timestamp : Int
  conversationId : String
deriving DecidableEq

/-- A user profile as consumed by `createConversation` (`userData` argument);
`displayName`, `avatarUrl` and `profilePic` may be absent or empty, which the
code coalesces with `||`. -/
structure UserProfile where
  uid : String
  username : String
  displayName : Option String
  avatarUrl : Option String
  profilePic : Option String
deriving DecidableEq

/-- The participant-detail snapshot built by `createConversation`:
`displayName: userData.displayName || userData.username` and
`avatarUrl: userData.avatarUrl || userData.profilePic || ""`. -/
def detailOf (p : UserProfile) : ParticipantDetail :=
  { uid := p.uid
    username := p.username
    displayName := jsOrString p.displayName p.username
    avatarUrl := jsOrString p.avatarUrl (jsOrString p.profilePic "") }

/-! ### Firestore collections as association lists -/

/-- Point read of a document by id (first match wins). -/
def lookupDoc {α : Type} : List (String × α) → String → Option α
  | [], _ => none
  | (k, v) :: rest, key => if k = key then some v else lookupDoc rest key

/-- Firestore `updateDoc`-style in-place update of the document with the given
id; a missing document leaves the collection unchanged. -/
def updateDocIn {α : Type} (coll : List (String × α)) (key : String) (f : α → α) :
    List (String × α) :=
  coll.map (fun p => if p.1 = key then (p.1, f p.2) else p)

/-- Does the collection contain a document with the given id? -/
def hasDoc {α : Type} (coll : List (String × α)) (key : String) : Bool :=
  coll.any (fun p => p.1 = key)

/-- Firestore `setDoc`: replace the document if present, create it otherwise. -/
def setDocIn {α : Type} (coll : List (String × α)) (key : String) (v : α) :
    List (String × α) :=
  if hasDoc coll key then updateDocIn coll key (fun _ => v) else coll ++ [(key, v)]

/-- The slice of the remote store touched by conversation creation: the
`conversations` and `conversationUsers` collections. -/
structure Store where
  conversations : List (String × Conversation)
  conversationUsers : List (String × ConversationUser)
deriving DecidableEq

/-! ### conversationService (src/services/conversationService.ts) -/

/-- Embeds `createConversation`: builds the conversation document with both
participants' denormalized details, zeroed `unreadCount`, `lastMessage: null`,
and writes it with `setDoc`. Nothing else in the store is touched. -/
def createConversation (store : Store) (now : Int) (currentUserId otherUserId : String)
    (currentUserData otherUserData : UserProfile) : Store × Conversation :=
  let conversationId := createConversationId currentUserId otherUserId
  let conversationData : Conversation :=
    { id := conversationId
      participants := [currentUserId, otherUserId]
      participantDetails := some
        [(currentUserId, detailOf currentUserData), (otherUserId, detailOf otherUserData)]
      lastMessage := none
      lastMessageTimestamp := now
      createdAt := now
      updatedAt := now
      unreadCount := 0
      isArchived := false
      deletedBy := none }
  ({ store with
      conversations := setDocIn store.conversations conversationId conversationData },
   conversationData)

/-- Embeds `getOrCreateConversation`: reads the computed-id document; if
present but lacking `participantDetails`, merges the details in; if present
and complete, returns it unchanged; if absent, delegates to
`createConversation`. -/
def getOrCreateConversation (store : Store) (now : Int) (currentUserId otherUserId : String)
    (currentUserData otherUserData : UserProfile) : Store × Conversation :=
  let conversationId := createConversationId currentUserId otherUserId
  match lookupDoc store.conversations conversationId with
  | some existingConv =>
    match existingConv.participantDetails with
    | none =>
      let updated : Conversation :=
        { existingConv with
          participantDetails := some
            [(currentUserId, detailOf currentUserData),
             (otherUserId, detailOf otherUserData)] }
      ({ store with
          conversations := setDocIn store.conversations conversationId updated },
       updated)
    | some _ => (store, existingConv)
  | none => createConversation store now currentUserId otherUserId currentUserData otherUserData

/-- Embeds `initializeConversationForUsers` from conversationMetadataService:
one batched write creating a `conversationUsers` document with id
`userId ++ "_" ++ conversationId` per user. (This function is exported by the
repository but has no caller anywhere in the codebase.) -/
def initializeConversationForUsers (store : Store) (now : Int) (userIds : List String)
    (conversationId : String) : Store :=
  { store with
    conversationUsers :=
      userIds.foldl
        (fun acc userId =>
          setDocIn acc (userId ++ "_" ++ conversationId)
            { conversationId := conversationId
              userId := userId
              joinedAt := now
              isMuted := false
              lastReadMessageId := none
              lastReadTimestamp := now })
        store.conversationUsers }

/-- One conversation document together with its `messages` sub-collection. -/
structure ConversationState where
  conv : Conversation
  messages : List (String × Message)
deriving DecidableEq

/-- Embeds `sendMessage`: builds the message document (client timestamp `now`,
`readBy = {senderId: now}`, optional fields only when non-empty), writes it,
and merges `{lastMessage, lastMessageTimestamp, updatedAt}` into the parent
conversation; the preview text is `text.substring(0, 50)`. -/
def sendMessage (st : ConversationState) (now : Int) (messageId : String)
    (senderId senderName senderAvatar text : String)
    (mediaUrls mediaTypes : Option (List String)) (replyTo : Option ReplyTo) :
    ConversationState × Message :=
  let messageData : Message :=
    { id := messageId
      conversationId := st.conv.id
      senderId := senderId
      senderName := senderName
      senderAvatar := senderAvatar
      text := text
      mediaUrls :=
        match mediaUrls with
        | some l => if 0 < l.length then some l else none
        | none => none
      mediaTypes :=
        match mediaTypes with
        | some l => if 0 < l.length then some l else none
        | none => none
      timestamp := now
      isRead := false
      readBy := [(senderId, now)]
      editedAt := none
      deletedAt := none
      replyTo := replyTo }
  let updatedConv : Conversation :=
    { st.conv with
      lastMessage := some
        { id := messageId
          text := jsSubstring text 50
          senderId := senderId
          senderName := senderName }
      lastMessageTimestamp := now
      updatedAt := now }
  ({ conv := updatedConv, messages := setDocIn st.messages messageId messageData },
   messageData)

/-- Embeds `deleteMessage`: soft delete, an `updateDoc` setting
`deletedAt = now` and overwriting `text` with the tombstone constant. -/
def deleteMessage (msgs : List (String × Message)) (messageId : String) (now : Int) :
    List (String × Message) :=
  updateDocIn msgs messageId
    (fun m => { m with deletedAt := some now, text := "[Message deleted]" })

/-- Upsert of the dotted-path update `readBy.userId = now` on a read-receipt map. -/
def setReadEntry (readBy : List (String × Int)) (userId : String) (now : Int) :
    List (String × Int) :=
  if readBy.any (fun p => p.1 = userId) then
    readBy.map (fun p => if p.1 = userId then (p.1, now) else p)
  else readBy ++ [(userId, now)]

/-- Embeds `markConversationAsRead` as it acts on the loaded conversation list
and the messages sub-collection: every fetched message gets
`readBy.userId = now`, and the conversation document gets `unreadCount: 0`. -/
def markConversationAsRead (convs : List Conversation) (msgs : List (String × Message))
    (conversationId : String) (userId : String) (now : Int) :
    List Conversation × List (String × Message) :=
  (convs.map (fun c => if c.id = conversationId then { c with unreadCount := 0 } else c),
   msgs.map (fun p => (p.1, { p.2 with readBy := setReadEntry p.2.readBy userId now })))

/-- Embeds `updateConversationUnreadCount`: read the conversation, clamp
`currentCount + increment` at zero, write it back; absent documents are left
untouched. -/
def updateConversationUnreadCount (convs : List (String × Conversation))
    (conversationId : String) (increment : Int) : List (String × Conversation) :=
  match lookupDoc convs conversationId with
  | none => convs
  | some conv =>
    let currentCount := conv.unreadCount
    let newCount := max 0 (currentCount + increment)
    updateDocIn convs conversationId (fun c => { c with unreadCount := newCount })

/-- The client-side filter applied by `subscribeToUserConversations`: drop
archived conversations and conversations whose `deletedBy` contains the
subscribed user. -/
def conversationVisibleTo (userId : String) (conv : Conversation) : Bool :=
  if conv.isArchived then false
  else
    match conv.deletedBy with
    | some deleted => !(deleted.contains userId)
    | none => true

/-- Descending order on `lastMessageTimestamp`, the comparator
`(a, b) => b.lastMessageTimestamp - a.lastMessageTimestamp` of the client-side
sort in `subscribeToUserConversations`. -/
def convDescLe (a b : Conversation) : Prop :=
  b.lastMessageTimestamp ≤ a.lastMessageTimestamp

instance : DecidableRel convDescLe :=
  fun a b => inferInstanceAs (Decidable (b.lastMessageTimestamp ≤ a.lastMessageTimestamp))

instance : IsTotal Conversation convDescLe :=
  ⟨fun a b => le_total b.lastMessageTimestamp a.lastMessageTimestamp⟩

instance : IsTrans Conversation convDescLe :=
  ⟨fun _ _ _ h1 h2 => le_trans h2 h1⟩

/-- The per-snapshot projection performed by `subscribeToUserConversations`
before invoking the callback: stamp each document's id, filter client-side,
sort descending by `lastMessageTimestamp`. -/
def projectUserConversations (userId : String) (docs : List (String × Conversation)) :
    List Conversation :=
  List.insertionSort convDescLe
    ((docs.map (fun p => { p.2 with id := p.1 })).filter (conversationVisibleTo userId))

/-! ### presenceService (src/services/presenceService.ts) -/

/-- The staleness filter applied by `listenToTypingIndicators` before invoking
the callback: keep an indicator exactly when `now - indicator.timestamp < 5000`. -/
def filterStaleTypingIndicators (now : Int) (typingUsers : List TypingIndicator) :
    List TypingIndicator :=
  typingUsers.filter (fun indicator => now - indicator.timestamp < 5000)

/-! ### ChatContext and MessageInput (orchestrator and UI layer) -/

/-- Outcome of a send attempt, as observable by the caller: a silent early
return, a synchronous throw before any remote call, or progression to the
remote write path with the given text. -/
inductive SendAttemptResult where
  | silentDrop
  | thrownError (msg : String)
  | remoteCall (text : String)
deriving DecidableEq

/-- Embeds `sendMessage` of ChatContext: throws when user or selected
conversation is missing, otherwise proceeds to the remote path (profile fetch
plus repository `sendMessage`) with the text unchanged — there is no
empty-text validation at this layer. -/
def contextSendMessage (user : Option String) (selectedConversation : Option Conversation)
    (text : String) : SendAttemptResult :=
  if user.isNone || selectedConversation.isNone then
    SendAttemptResult.thrownError "User or conversation not available"
  else
    SendAttemptResult.remoteCall text

/-- Embeds `handleSendMessage` of MessageInput: an attempt with blank trimmed
text, no selected conversation, or a disabled input returns early without any
error; otherwise it delegates `messageText.trim()` to the context layer. -/
def handleSendMessage (messageText : String) (user : Option String)
    (selectedConversation : Option Conversation) (disabled : Bool) : SendAttemptResult :=
  if jsTrim messageText = "" || selectedConversation.isNone || disabled then
    SendAttemptResult.silentDrop
  else
    contextSendMessage user selectedConversation (jsTrim messageText)

/-- State of the conversation-list loading effect in ChatProvider: the
`hasReceivedData` flag shared by the subscription callbacks and the two
timers, the rendered list, the error slot, the loading flag, and whether the
one-shot manual fetch has been issued. -/
structure ConvLoadState where
  hasReceivedData : Bool
  conversations : List Conversation
  conversationsError : Option String
  conversationsLoading : Bool
  manualFetchIssued : Bool
deriving DecidableEq

/-- The state of the effect right after subscribing. -/
def initialConvLoadState : ConvLoadState :=
  { hasReceivedData := false
    conversations := []
    conversationsError := none
    conversationsLoading := true
    manualFetchIssued := false }

/-- Events delivered to the conversation-list loading effect: a subscription
snapshot, a subscription error (the `onError` callback), the 5-second
manual-fetch timer, and the 15-second initial-load timer. -/
inductive ConvLoadEvent where
  | snapshot (convs : List Conversation)
  | subscriptionError (message : String)
  | manualFetchTimer
  | initialLoadTimer
deriving DecidableEq

/-- Transition function of the conversation-list loading effect, following the
handlers in ChatProvider: a snapshot stores the list; the `onError` callback
sets `hasReceivedData`, records the error and stops loading; the 5-second
timer issues the manual fetch only when nothing has been received; the
15-second timer settles on an empty list only when nothing has been received. -/
def stepConvLoad (st : ConvLoadState) (ev : ConvLoadEvent) : ConvLoadState :=
  match ev with
  | ConvLoadEvent.snapshot convs =>
    { st with hasReceivedData := true, conversations := convs, conversationsLoading := false }
  | ConvLoadEvent.subscriptionError msg =>
    { st with hasReceivedData := true, conversationsError := some msg,
              conversationsLoading := false }
  | ConvLoadEvent.manualFetchTimer =>
    if st.hasReceivedData then st else { st with manualFetchIssued := true }
  | ConvLoadEvent.initialLoadTimer =>
    if st.hasReceivedData then st
    else { st with conversations := [], conversationsLoading := false }

/-- Embeds `totalUnreadCount` of ChatContext:
`conversations.reduce((sum, conv) => sum + (conv.unreadCount || 0), 0)`. -/
def totalUnreadCount (convs : List Conversation) : Int :=
  convs.foldl (fun sum c => sum + c.unreadCount) 0

/-! ### Concrete sample data used to instantiate the theorems -/

/-- Sample profile for user alice. -/
def aliceProfile : UserProfile :=
  { uid := "alice", username := "alice", displayName := some "Alice"
    avatarUrl := some "https://cdn/a.png", profilePic := none }

/-- Sample profile for user bob, exercising the `profilePic` fallback. -/
def bobProfile : UserProfile :=
  { uid := "bob", username := "bob", displayName := none
    avatarUrl := none, profilePic := some "https://cdn/b.png" }

/-- A store with no documents at all. -/
def emptyStore : Store := { conversations := [], conversationUsers := [] }

/-- Sample visible conversation with a pending unread count. -/
def convA : Conversation :=
  { id := "a_x", participants := ["a", "x"], participantDetails := none
    lastMessage := none, lastMessageTimestamp := 50, createdAt := 0, updatedAt := 0
    unreadCount := 2, isArchived := false, deletedBy := none }

/-- Sample archived conversation. -/
def convB : Conversation :=
  { id := "b_x", participants := ["b", "x"], participantDetails := none
    lastMessage := none, lastMessageTimestamp := 100, createdAt := 0, updatedAt := 0
    unreadCount := 0, isArchived := true, deletedBy := none }

/-- Sample conversation hidden by user x. -/
def convC : Conversation :=
  { id := "c_x", participants := ["c", "x"], participantDetails := none
    lastMessage := none, lastMessageTimestamp := 70, createdAt := 0, updatedAt := 0
    unreadCount := 1, isArchived := false, deletedBy := some ["x"] }

/-- Sample typing indicator that is stale at reader time 10000. -/
def tiStale : TypingIndicator :=
  { userId := "u1", username := "U1", timestamp := 1000, conversationId := "c" }

/-- Sample typing indicator that is fresh at reader time 10000. -/
def tiFresh : TypingIndicator :=
  { userId := "u2", username := "U2", timestamp := 9000, conversationId := "c" }

/-- Sample message with media attached. -/
def sampleMessage : Message :=
  { id := "m1", conversationId := "a_x", senderId := "a", senderName := "Ann"
    senderAvatar := "", text := "look at this"
    mediaUrls := some ["https://cdn/pic.png"], mediaTypes := some ["image"]
    timestamp := 120, isRead := false, readBy := [("a", 120)]
    editedAt := none, deletedAt := none, replyTo := none }

/-- Sample conversation document with one message in its sub-collection. -/
def sampleConvState : ConversationState :=
  { conv := convA, messages := [("m1", sampleMessage)] }

end Meowgram

namespace Meowgram

/-! ### Helper lemmas about the collection model -/

/-- Point lookup after an in-place update returns the updated document. -/
theorem lookupDoc_updateDocIn {α : Type} :
    ∀ (coll : List (String × α)) (key : String) (f : α → α),
      lookupDoc (updateDocIn coll key f) key = (lookupDoc coll key).map f
  | [], _, _ => rfl
  | (k, v) :: rest, key, f => by
    show lookupDoc ((if k = key then (k, f v) else (k, v)) :: updateDocIn rest key f) key =
      (lookupDoc ((k, v) :: rest) key).map f
    by_cases h : k = key
    · rw [if_pos h]
      show (if k = key then some (f v) else lookupDoc (updateDocIn rest key f) key) =
        (if k = key then some v else lookupDoc rest key).map f
      rw [if_pos h, if_pos h]
      rfl
    · rw [if_neg h]
      show (if k = key then some v else lookupDoc (updateDocIn rest key f) key) =
        (if k = key then some v else lookupDoc rest key).map f
      rw [if_neg h, if_neg h]
      exact lookupDoc_updateDocIn rest key f

/-- Every document of a collection after a `setDoc` either was already there or
is the freshly written value. -/
theorem mem_setDocIn {α : Type} {q : String × α} {coll : List (String × α)} {key : String}
    {v : α} (h : q ∈ setDocIn coll key v) : q ∈ coll ∨ q.2 = v := by
  unfold setDocIn at h
  by_cases hd : hasDoc coll key
  · rw [if_pos hd] at h
    unfold updateDocIn at h
    rw [List.mem_map] at h
    obtain ⟨p, hp, hq⟩ := h
    by_cases hk : p.1 = key
    · rw [if_pos hk] at hq
      right
      rw [← hq]
    · rw [if_neg hk] at hq
      left
      rw [← hq]
      exact hp
  · rw [if_neg hd] at h
    rcases List.mem_append.mp h with h1 | h2
    · exact Or.inl h1
    · right
      rw [List.mem_singleton.mp h2]

/-! ### Order facts about the JavaScript string comparison -/

/-- Asymmetry of the lexicographic character-list comparison. -/
theorem charListLt_asymm : ∀ (as bs : List Char),
    charListLt as bs = true → charListLt bs as = false
  | [], [] => by simp [charListLt]
  | [], _ :: _ => by simp [charListLt]
  | _ :: _, [] => by simp [charListLt]
  | a :: as, b :: bs => by
    intro h
    simp only [charListLt] at h ⊢
    by_cases hab : a < b
    · have hba : ¬ b < a := lt_asymm hab
      simp [hab, hba]
    · by_cases hba : b < a
      · simp [hab, hba] at h
      · simp only [if_neg hab, if_neg hba] at h ⊢
        exact charListLt_asymm as bs h

/-- Two character lists neither of which is lexicographically below the other
are equal. -/
theorem charListLt_antisymm_false : ∀ (as bs : List Char),
    charListLt as bs = false → charListLt bs as = false → as = bs
  | [], [] => by intros; rfl
  | [], _ :: _ => by simp [charListLt]
  | _ :: _, [] => by simp [charListLt]
  | a :: as, b :: bs => by
    intro h1 h2
    simp only [charListLt] at h1 h2
    by_cases hab : a < b
    · simp [hab] at h1
    · by_cases hba : b < a
      · simp [hab, hba] at h2
      · have hchar : a = b := le_antisymm (not_lt.mp hba) (not_lt.mp hab)
        simp only [if_neg hab, if_neg hba] at h1 h2
        rw [hchar, charListLt_antisymm_false as bs h1 h2]

/-- Asymmetry of the string comparison. -/
theorem strLt_asymm {a b : String} (h : strLt a b = true) : strLt b a = false :=
  charListLt_asymm a.data b.data h

/-- Two strings neither of which compares below the other are equal. -/
theorem strLt_antisymm_false {a b : String} (h1 : strLt a b = false)
    (h2 : strLt b a = false) : a = b := by
  cases a with
  | mk da =>
    cases b with
    | mk db =>
      rw [charListLt_antisymm_false da db h1 h2]

/-! ### Claim theorems -/

/-- C8: for every pair of user ids, the conversation-id computation
`createConversationId` returns the same string when called with the arguments
swapped. -/
theorem createConversationId_comm (userA userB : String) :
    createConversationId userA userB = createConversationId userB userA := by
  unfold createConversationId
  by_cases h1 : strLt userB userA = true
  · have h2 : strLt userA userB = false := strLt_asymm h1
    rw [if_pos h1, if_neg (by rw [h2]; exact Bool.false_ne_true)]
  · have h1f : strLt userB userA = false := Bool.not_eq_true _ ▸ eq_false_of_ne_true h1
    by_cases h2 : strLt userA userB = true
    · rw [if_neg h1, if_pos h2]
    · have h2f : strLt userA userB = false := eq_false_of_ne_true h2
      rw [strLt_antisymm_false h2f h1f]

/-- C9: for every snapshot delivered to `listenToTypingIndicators`, every
indicator whose age exceeds 5 seconds (5000 ms) is filtered out before the
callback, and every indicator in the callback list is strictly younger than
the 5-second staleness bound. -/
theorem listenToTypingIndicators_staleness (now : Int) (indicators : List TypingIndicator) :
    (∀ i ∈ indicators, 5000 < now - i.timestamp →
      i ∉ filterStaleTypingIndicators now indicators) ∧
    (∀ i ∈ filterStaleTypingIndicators now indicators, now - i.timestamp < 5000) := by
  constructor
  · intro i _ hage hmem
    rw [filterStaleTypingIndicators, List.mem_filter] at hmem
    have hkept := hmem.2
    simp only [decide_eq_true_eq] at hkept
    omega
  · intro i hmem
    rw [filterStaleTypingIndicators, List.mem_filter] at hmem
    have hkept := hmem.2
    simpa only [decide_eq_true_eq] using hkept

/-- Witness for C9 at a concrete snapshot: the stale indicator is dropped. -/
theorem listenToTypingIndicators_staleness_witness :
    tiStale ∉ filterStaleTypingIndicators 10000 [tiStale, tiFresh] :=
  (listenToTypingIndicators_staleness 10000 [tiStale, tiFresh]).1 tiStale (by decide) (by decide)

/-- C10: for every existing conversation and every increment (positive or
negative), `updateConversationUnreadCount` stores
`max(0, currentCount + increment)` as the new `unreadCount`, which is never
negative. -/
theorem updateConversationUnreadCount_clamped (convs : List (String × Conversation))
    (conversationId : String) (increment : Int) (conv : Conversation)
    (h : lookupDoc convs conversationId = some conv) :
    ∃ updated : Conversation,
      lookupDoc (updateConversationUnreadCount convs conversationId increment)
        conversationId = some updated ∧
      updated.unreadCount = max 0 (conv.unreadCount + increment) ∧
      0 ≤ updated.unreadCount := by
  refine ⟨{ conv with unreadCount := max 0 (conv.unreadCount + increment) }, ?_, rfl,
    le_max_left 0 _⟩
  unfold updateConversationUnreadCount
  rw [h, lookupDoc_updateDocIn, h]
  rfl

/-- Witness for C10 at a concrete conversation and a negative increment that
would drive the raw count below zero. -/
theorem updateConversationUnreadCount_clamped_witness :
    lookupDoc [("a_x", convA)] "a_x" = some convA ∧
    ∃ updated : Conversation,
      lookupDoc (updateConversationUnreadCount [("a_x", convA)] "a_x" (-5)) "a_x" =
        some updated ∧
      updated.unreadCount = max 0 (convA.unreadCount + (-5)) ∧
      0 ≤ updated.unreadCount :=
  ⟨by decide, updateConversationUnreadCount_clamped [("a_x", convA)] "a_x" (-5) convA
    (by decide)⟩

/-- C6: for every existing message, `deleteMessage` leaves the message
document present, sets `deletedAt`, sets `text` to the tombstone constant, and
leaves every other field (including `mediaUrls`, `timestamp`, `senderId`)
unchanged. -/
theorem deleteMessage_soft_delete (msgs : List (String × Message)) (messageId : String)
    (now : Int) (m : Message) (h : lookupDoc msgs messageId = some m) :
    ∃ m2 : Message,
      lookupDoc (deleteMessage msgs messageId now) messageId = some m2 ∧
      m2.deletedAt = some now ∧
      m2.text = "[Message deleted]" ∧
      m2.id = m.id ∧ m2.conversationId = m.conversationId ∧ m2.senderId = m.senderId ∧
      m2.senderName = m.senderName ∧ m2.senderAvatar = m.senderAvatar ∧
      m2.mediaUrls = m.mediaUrls ∧ m2.mediaTypes = m.mediaTypes ∧
      m2.timestamp = m.timestamp ∧ m2.isRead = m.isRead ∧ m2.readBy = m.readBy ∧
      m2.editedAt = m.editedAt ∧ m2.replyTo = m.replyTo := by
  refine ⟨{ m with deletedAt := some now, text := "[Message deleted]" }, ?_, rfl, rfl, rfl,
    rfl, rfl, rfl, rfl, rfl, rfl, rfl, rfl, rfl, rfl, rfl⟩
  unfold deleteMessage
  rw [lookupDoc_updateDocIn, h]
  rfl

/-- Witness for C6 at a concrete message carrying media. -/
theorem deleteMessage_soft_delete_witness :
    lookupDoc [("m1", sampleMessage)] "m1" = some sampleMessage ∧
    ∃ m2 : Message,
      lookupDoc (deleteMessage [("m1", sampleMessage)] "m1" 500) "m1" = some m2 ∧
      m2.deletedAt = some 500 ∧
      m2.text = "[Message deleted]" ∧
      m2.id = sampleMessage.id ∧ m2.conversationId = sampleMessage.conversationId ∧
      m2.senderId = sampleMessage.senderId ∧
      m2.senderName = sampleMessage.senderName ∧
      m2.senderAvatar = sampleMessage.senderAvatar ∧
      m2.mediaUrls = sampleMessage.mediaUrls ∧ m2.mediaTypes = sampleMessage.mediaTypes ∧
      m2.timestamp = sampleMessage.timestamp ∧ m2.isRead = sampleMessage.isRead ∧
      m2.readBy = sampleMessage.readBy ∧
      m2.editedAt = sampleMessage.editedAt ∧ m2.replyTo = sampleMessage.replyTo :=
  ⟨by decide, deleteMessage_soft_delete [("m1", sampleMessage)] "m1" 500 sampleMessage
    (by decide)⟩

/-- C2: for every snapshot delivered to `subscribeToUserConversations`, the
list passed to the callback is sorted descending by `lastMessageTimestamp`
(every element's timestamp is at least its successor's), contains no
conversation whose `deletedBy` contains the subscribed user, and contains no
archived conversation. -/
theorem subscribeToUserConversations_callback_invariants (userId : String)
    (docs : List (String × Conversation)) :
    List.Sorted convDescLe (projectUserConversations userId docs) ∧
    ∀ c ∈ projectUserConversations userId docs,
      c.isArchived = false ∧ userId ∉ c.deletedBy.getD [] := by
  constructor
  · exact List.sorted_insertionSort convDescLe _
  · intro c hc
    have hmem : c ∈ (docs.map (fun p => { p.2 with id := p.1 })).filter
        (conversationVisibleTo userId) :=
      (List.perm_insertionSort convDescLe _).subset hc
    rw [List.mem_filter] at hmem
    have hvis := hmem.2
    unfold conversationVisibleTo at hvis
    by_cases ha : c.isArchived
    · rw [if_pos ha] at hvis
      exact absurd hvis Bool.false_ne_true
    · rw [if_neg ha] at hvis
      refine ⟨eq_false_of_ne_true ha, ?_⟩
      cases hdel : c.deletedBy with
      | none => simp [hdel]
      | some deleted =>
        rw [hdel] at hvis
        have hvis2 : (!(deleted.contains userId)) = true := hvis
        simp only [Option.getD_some, hdel]
        intro hin
        have hcont : deleted.contains userId = true := List.elem_iff.mpr hin
        rw [hcont] at hvis2
        exact absurd hvis2 (by decide)

/-- Witness for C2 at a concrete snapshot containing a visible, an archived
and a self-deleted conversation. -/
theorem subscribeToUserConversations_callback_invariants_witness :
    convA.isArchived = false ∧ "x" ∉ convA.deletedBy.getD [] :=
  (subscribeToUserConversations_callback_invariants "x"
    [("a_x", convA), ("b_x", convB), ("c_x", convC)]).2 convA (by decide)

/-- Auxiliary: a fold of pointwise-dominated additions from a dominated
accumulator stays dominated. -/
theorem foldl_add_le_foldl_add (f g : Conversation → Int) :
    ∀ (l : List Conversation) (a b : Int), a ≤ b → (∀ c ∈ l, f c ≤ g c) →
      l.foldl (fun s c => s + f c) a ≤ l.foldl (fun s c => s + g c) b
  | [], _, _, hab, _ => hab
  | c :: rest, a, b, hab, h => by
    simp only [List.foldl_cons]
    exact foldl_add_le_foldl_add f g rest (a + f c) (b + g c)
      (add_le_add hab (h c (List.mem_cons_self c rest)))
      (fun d hd => h d (List.mem_cons_of_mem c hd))

/-- C7: on every conversation list whose unread counters are non-negative (as
every write path keeps them), running `markConversationAsRead` and then
recomputing `totalUnreadCount` yields a value less than or equal to the value
before the call. -/
theorem markConversationAsRead_totalUnread_nonincreasing (convs : List Conversation)
    (msgs : List (String × Message)) (conversationId userId : String) (now : Int)
    (h : ∀ c ∈ convs, 0 ≤ c.unreadCount) :
    totalUnreadCount (markConversationAsRead convs msgs conversationId userId now).1 ≤
      totalUnreadCount convs := by
  unfold markConversationAsRead totalUnreadCount
  rw [List.foldl_map]
  exact foldl_add_le_foldl_add
    (fun c => (if c.id = conversationId then { c with unreadCount := 0 } else c).unreadCount)
    (fun c => c.unreadCount) convs 0 0 le_rfl
    (fun c hc => by
      dsimp only
      by_cases hid : c.id = conversationId
      · rw [if_pos hid]
        exact h c hc
      · rw [if_neg hid])

/-- Witness for C7 at a concrete list holding two unread conversations. -/
theorem markConversationAsRead_totalUnread_nonincreasing_witness :
    totalUnreadCount (markConversationAsRead [convA, convC] [("m1", sampleMessage)]
      "a_x" "x" 999).1 ≤ totalUnreadCount [convA, convC] :=
  markConversationAsRead_totalUnread_nonincreasing [convA, convC] [("m1", sampleMessage)]
    "a_x" "x" 999 (by decide)

/-- C3: whenever the clock value `now` stamped by `sendMessage` is at least
the (client-generated) timestamp of every message already in the
sub-collection, then after `sendMessage` the parent conversation's
`lastMessageTimestamp` is greater than or equal to the timestamp of every
message in the sub-collection, and the conversation's `lastMessage.text`
equals the sent text truncated to the 50-character preview length. -/
theorem sendMessage_lastMessage_invariants (st : ConversationState) (now : Int)
    (messageId senderId senderName senderAvatar text : String)
    (mediaUrls mediaTypes : Option (List String)) (replyTo : Option ReplyTo)
    (h : ∀ p ∈ st.messages, (p : String × Message).2.timestamp ≤ now) :
    (∀ p ∈ (sendMessage st now messageId senderId senderName senderAvatar text
        mediaUrls mediaTypes replyTo).1.messages,
      (p : String × Message).2.timestamp ≤
        (sendMessage st now messageId senderId senderName senderAvatar text
          mediaUrls mediaTypes replyTo).1.conv.lastMessageTimestamp) ∧
    ∃ lm : LastMessageSummary,
      (sendMessage st now messageId senderId senderName senderAvatar text
        mediaUrls mediaTypes replyTo).1.conv.lastMessage = some lm ∧
      lm.text = jsSubstring text 50 := by
  constructor
  · intro p hp
    have hts : (sendMessage st now messageId senderId senderName senderAvatar text
        mediaUrls mediaTypes replyTo).1.conv.lastMessageTimestamp = now := rfl
    rw [hts]
    rcases mem_setDocIn hp with hold | hnew
    · exact h p hold
    · rw [hnew]
  · exact ⟨_, rfl, rfl⟩

/-- Witness for C3 at a concrete conversation state and send. -/
theorem sendMessage_lastMessage_invariants_witness :
    (∀ p ∈ sampleConvState.messages, (p : String × Message).2.timestamp ≤ 200) ∧
    ((∀ p ∈ (sendMessage sampleConvState 200 "m2" "alice" "Alice" "" "hello there"
        none none none).1.messages,
      (p : String × Message).2.timestamp ≤
        (sendMessage sampleConvState 200 "m2" "alice" "Alice" "" "hello there"
          none none none).1.conv.lastMessageTimestamp) ∧
    ∃ lm : LastMessageSummary,
      (sendMessage sampleConvState 200 "m2" "alice" "Alice" "" "hello there"
        none none none).1.conv.lastMessage = some lm ∧
      lm.text = jsSubstring "hello there" 50) :=
  ⟨by decide, sendMessage_lastMessage_invariants sampleConvState 200 "m2" "alice" "Alice"
    "" "hello there" none none none (by decide)⟩

/-- C1: evidence of the divergence between `getOrCreateConversation` and the
documented conversation-initialization contract. On a store with no prior
conversation between alice and bob, `getOrCreateConversation` does create the
conversation document under the computed id with both participants'
denormalized details and a zeroed counter, but it writes nothing to the
`conversationUsers` collection: the `ConversationUserMeta` rows that
`initializeConversationForUsers` (whose own doc comment says it is called when
creating a conversation, yet which has no caller) would have produced are
absent. -/
theorem getOrCreateConversation_creates_no_meta_rows :
    ((getOrCreateConversation emptyStore 1000 "alice" "bob" aliceProfile
        bobProfile).1.conversationUsers = []) ∧
    (lookupDoc (getOrCreateConversation emptyStore 1000 "alice" "bob" aliceProfile
        bobProfile).1.conversationUsers "alice_alice_bob" = none) ∧
    (lookupDoc (getOrCreateConversation emptyStore 1000 "alice" "bob" aliceProfile
        bobProfile).1.conversationUsers "bob_alice_bob" = none) ∧
    (lookupDoc (getOrCreateConversation emptyStore 1000 "alice" "bob" aliceProfile
        bobProfile).1.conversations "alice_bob" =
      some (getOrCreateConversation emptyStore 1000 "alice" "bob" aliceProfile
        bobProfile).2) ∧
    ((getOrCreateConversation emptyStore 1000 "alice" "bob" aliceProfile
        bobProfile).2.unreadCount = 0) ∧
    ((getOrCreateConversation emptyStore 1000 "alice" "bob" aliceProfile
        bobProfile).2.participantDetails =
      some [("alice", detailOf aliceProfile), ("bob", detailOf bobProfile)]) ∧
    (lookupDoc (initializeConversationForUsers
        (getOrCreateConversation emptyStore 1000 "alice" "bob" aliceProfile bobProfile).1
        1000 ["alice", "bob"] "alice_bob").conversationUsers "alice_alice_bob" ≠ none) := by
  decide

/-- C4 counterexample: with a conversation selected, a send attempt whose text
is blank is dropped by `handleSendMessage` with a plain early return — it is
not surfaced as a thrown error — and `sendMessage` of ChatContext performs no
empty-text validation at all: called directly with empty text it proceeds to
the remote write path. -/
theorem emptyText_send_silently_dropped :
    handleSendMessage "   " (some "alice") (some convA) false =
      SendAttemptResult.silentDrop ∧
    handleSendMessage "   " (some "alice") (some convA) false ≠
      SendAttemptResult.thrownError "User or conversation not available" ∧
    contextSendMessage (some "alice") (some convA) "" = SendAttemptResult.remoteCall "" := by
  decide

/-- C4 (amended): a send attempt with no user or no selected conversation is
rejected synchronously by ChatContext's `sendMessage` with a thrown error
before any remote call; a send attempt whose trimmed text is empty is dropped
silently by the UI layer before any remote call (no error is surfaced); and
the context layer itself never rejects empty text — with a user and a
conversation present it always proceeds to the remote path. -/
theorem send_validation_behavior (user : Option String) (conv : Option Conversation)
    (text : String) (disabled : Bool) :
    ((user.isNone || conv.isNone) = true →
      contextSendMessage user conv text =
        SendAttemptResult.thrownError "User or conversation not available") ∧
    (jsTrim text = "" →
      handleSendMessage text user conv disabled = SendAttemptResult.silentDrop) ∧
    (user.isSome = true → conv.isSome = true →
      contextSendMessage user conv text = SendAttemptResult.remoteCall text) := by
  refine ⟨?_, ?_, ?_⟩
  · intro h
    unfold contextSendMessage
    rw [if_pos h]
  · intro h
    unfold handleSendMessage
    rw [h]
    simp
  · intro h1 h2
    unfold contextSendMessage
    have hu : user.isNone = false := by
      cases user with
      | none => exact absurd h1 (by decide)
      | some u => rfl
    have hc : conv.isNone = false := by
      cases conv with
      | none => exact absurd h2 (by decide)
      | some c => rfl
    rw [hu, hc]
    rfl

/-- Witness for C4 (amended) at concrete inputs: a missing user is thrown, a
blank text is silently dropped, and an empty text with user and conversation
present reaches the remote path. -/
theorem send_validation_behavior_witness :
    contextSendMessage none (some convA) "hello" =
      SendAttemptResult.thrownError "User or conversation not available" ∧
    handleSendMessage " " (some "alice") (some convA) false =
      SendAttemptResult.silentDrop ∧
    contextSendMessage (some "alice") (some convA) "" = SendAttemptResult.remoteCall "" :=
  ⟨(send_validation_behavior none (some convA) "hello" false).1 (by decide),
   (send_validation_behavior (some "alice") (some convA) " " false).2.1 (by decide),
   (send_validation_behavior (some "alice") (some convA) "" false).2.2 (by decide) (by decide)⟩

/-- C5 counterexample: delivering the subscription `onError` callback does not
issue the manual fetch, and — because the error handler sets
`hasReceivedData` — the 5-second timer firing afterwards does not issue it
either: the error suppresses the one-shot fallback instead of triggering it. -/
theorem subscriptionError_does_not_trigger_manualFetch :
    ((stepConvLoad initialConvLoadState
        (ConvLoadEvent.subscriptionError "network down")).manualFetchIssued = false) ∧
    ((stepConvLoad (stepConvLoad initialConvLoadState
        (ConvLoadEvent.subscriptionError "network down"))
        ConvLoadEvent.manualFetchTimer).manualFetchIssued = false) ∧
    ((stepConvLoad initialConvLoadState ConvLoadEvent.manualFetchTimer).manualFetchIssued
      = true) := by
  decide

/-- C5 (amended): when the conversation-list subscription reports an error via
`onError`, the orchestrator records the error, stops the loading state and
marks data as received; it does not trigger the manual-fetch fallback, and a
subsequent firing of the 5-second fallback timer leaves the manual fetch
un-issued — the fallback fires only when neither a snapshot nor an error has
arrived. -/
theorem subscriptionError_records_error_and_suppresses_fallback (st : ConvLoadState)
    (msg : String) :
    (stepConvLoad st (ConvLoadEvent.subscriptionError msg)).conversationsError = some msg ∧
    (stepConvLoad st (ConvLoadEvent.subscriptionError msg)).conversationsLoading = false ∧
    (stepConvLoad st (ConvLoadEvent.subscriptionError msg)).hasReceivedData = true ∧
    (stepConvLoad st (ConvLoadEvent.subscriptionError msg)).manualFetchIssued =
      st.manualFetchIssued ∧
    (stepConvLoad (stepConvLoad st (ConvLoadEvent.subscriptionError msg))
      ConvLoadEvent.manualFetchTimer).manualFetchIssued = st.manualFetchIssued := by
  refine ⟨rfl, rfl, rfl, rfl, ?_⟩
  simp [stepConvLoad]

end Meowgram
